import Mathlib

/-
Verification of the denoising pipeline in deep.py: the `remux` sanitizer
(lines 43-62) and the `DenoiseWorker` class (lines 66-284) — its
constructor, `run` method, `_cleanup`, and cooperative `stop` flag.

The embedding is a shallow one: every external effect (the ffmpeg
subprocesses, moviepy's VideoFileClip, DeepFilterNet's init_df /
load_audio / enhance / save_audio, filesystem removals, and the timing
of `stop()` relative to the four `_is_running` polls) is an oracle
value in `Env`, and a run is the finite list of observable actions
(`Act`) the code performs for that oracle, in program order.
Paths are abstracted to names: the constructor's scratch directory is
dir 0, run's `tempfile.mkdtemp()` directory is dir 1, and files are
identified by (dir, basename).

The GUI class `VideoDenoiserApp` is out of scope except for one fact
used as a modelling assumption: `update_denoise_button_state`
(line 421) prevents constructing a worker when DEEPFILTER_AVAILABLE is
false, so the embedding models runs with the dependencies present
(the line 81 guard false).
-/

/-- Outcome of a Python call that either succeeds or raises an exception
carrying a message. -/
inductive PyRes where
  | ok : PyRes
  | raised : String → PyRes
deriving DecidableEq, Repr

/-- Result of the DeepFilterNet `enhance` call (line 164): it can raise, or
return `None`, or return a sample buffer (samples abstracted as integers). -/
inductive EnhRes where
  | raised : String → EnhRes
  | returned : Option (List Int) → EnhRes
deriving DecidableEq, Repr

/-- Result of the remux-back `subprocess.run` (line 213), matching the four
handlers at lines 218-232: zero exit, `CalledProcessError` (with captured
stderr/stdout), `FileNotFoundError`, or any other exception. -/
inductive FfmpegRes where
  | exitZero : FfmpegRes
  | calledProcessError : String → String → FfmpegRes
  | fileNotFound : FfmpegRes
  | otherError : String → FfmpegRes
deriving DecidableEq, Repr

/-- The job descriptor handed to `DenoiseWorker.__init__` (line 71). -/
structure Job where
  input_video : String
  output_video : String
  atten_lim_db : Option Int
deriving DecidableEq, Repr

/-- Oracle for every external outcome a single job can observe.
`running1` … `running4` are the values the `self._is_running` flag has at
the four polls (lines 148, 161, 168, 188); `stop()` (line 282) only ever
flips the flag to false, and no poll exists before sanitize or extraction. -/
structure Env where
  /-- sanitize subprocess (line 61) exited with status zero -/
  remuxExitZero : Bool
  /-- `VideoFileClip(self.input_video)` (line 98) -/
  openClip : PyRes
  /-- `self.video_clip.audio is not None` (line 109) -/
  hasAudio : Bool
  /-- `hasattr(self.video_clip.audio, 'write_audiofile')` (line 116) -/
  audioWritable : Bool
  /-- `write_audiofile` (line 123) -/
  writeAudio : PyRes
  /-- `_is_running` at the poll on line 148 -/
  running1 : Bool
  /-- `_is_running` at the poll on line 161 -/
  running2 : Bool
  /-- `_is_running` at the poll on line 168 -/
  running3 : Bool
  /-- `_is_running` at the poll on line 188 -/
  running4 : Bool
  /-- `init_df` (line 155) -/
  initDf : PyRes
  /-- `load_audio` (line 157) -/
  loadAudio : PyRes
  /-- `enhance` (line 164) -/
  enhanceRes : EnhRes
  /-- `save_audio` (line 177) -/
  saveAudio : PyRes
  /-- remux-back subprocess (line 213) -/
  remuxBack : FfmpegRes
  /-- `os.remove` of temp_original_audio.wav in `_cleanup` (line 266) -/
  removeOrigOk : Bool
  /-- `os.remove` of temp_enhanced_audio.wav in `_cleanup` (line 266) -/
  removeEnhOk : Bool
deriving DecidableEq, Repr

/-- Events emitted on the worker's three signals (lines 67-69). -/
inductive Ev where
  | progress : Nat → Ev
  | finished : String → String → Ev
  | errored : String → Ev
deriving DecidableEq, Repr

/-- Observable actions of one job, in program order.  `outputHanded` marks
the output path being handed to the external ffmpeg process for writing
(the process may write the file even when it then exits non-zero). -/
inductive Act where
  | mkTempDir : Nat → Act
  | invokeTool : List String → Act
  | createFile : Nat → String → Act
  | outputHanded : String → Act
  | openHandle : Act
  | closeHandle : Act
  | writeAudioCall : Act
  | initModelCall : Act
  | loadAudioCall : Act
  | enhanceCall : Option Int → Act
  | saveAudioCall : Act
  | cleanupCall : Nat → Act
  | removeFile : Nat → String → Act
  | removeDir : Nat → Act
  | emit : Ev → Act
deriving DecidableEq, Repr

/-- `Path(p).name`: the final path component (everything after the last
separator). -/
def baseName (p : String) : String :=
  String.mk (p.data.foldl (fun acc c => if c = '/' then [] else acc ++ [c]) [])

/-- Name of the sanitized copy `remux` writes (line 47). -/
def remuxOut (source : String) : String := "remux_" ++ baseName source

/-- The sanitize command line built at lines 49-60. -/
def remuxCmd (ffmpeg source out : String) : List String :=
  [ffmpeg, "-y", "-ignore_editlist", "1", "-i", source,
   "-map", "0:v", "-map", "0:a?", "-c", "copy",
   "-movflags", "+faststart", out]

/-- The remux-back command line built at lines 196-209. -/
def remuxBackCmd (exe input enhanced out : String) : List String :=
  [exe, "-y", "-ignore_editlist", "1", "-i", input, "-i", enhanced,
   "-map", "0:v:0", "-map", "1:a:0", "-c:v", "copy", "-c:a", "aac",
   "-b:a", "320k", "-shortest", out]

/-- `remux` (lines 43-62): make a fresh scratch dir (dir 0), run ffmpeg with
`check=True` and no output capture; on non-zero exit `CalledProcessError`
propagates and the sanitized file is not produced.  Nothing in the program
ever removes dir 0 or its file. -/
def remuxActs (source : String) (exitZero : Bool) : List Act :=
  [Act.mkTempDir 0, Act.invokeTool (remuxCmd "ffmpeg" source (remuxOut source))] ++
    (if exitZero then [Act.createFile 0 (remuxOut source)] else [])

/-- Truth value of the guards `if not self.error.signal:` (lines 143 and
243).  `self.error` is a pyqtBoundSignal whose `.signal` attribute is the
signal's signature string (for example "2error(QString)"), which is
non-empty and hence always truthy in Python, so both guarded emits are
dead code. -/
def errorSignalTruthy : Bool := true

def origWav : String := "temp_original_audio.wav"

def enhWav : String := "temp_enhanced_audio.wav"

/-- Python `a or b or c` over strings (empty string is falsy), as used for
the detail of the FFmpeg error message on line 226. -/
def pyOr (a b c : String) : String :=
  if a ≠ "" then a else if b ≠ "" then b else c

/-- What the `try` body of `run` (lines 91-236) does after the temp dir is
made. -/
structure BodyOut where
  /-- actions performed, in order -/
  acts : List Act
  /-- the video clip is still open when control reaches the `finally` block -/
  clipOpen : Bool
  /-- files present in dir 1 when `_cleanup` runs -/
  files : List String
  /-- an exception escaped to the outer `except` (line 238) with this message -/
  escaped : Option String
deriving DecidableEq, Repr

/-- The `try` body of `DenoiseWorker.run` (lines 91-236), traced against an
oracle.  Each branch mirrors the source control flow; `return` statements
are modelled by ending the trace (the `finally` block is appended by
`runWorker`). -/
def runTryBody (j : Job) (sanitized : String) (env : Env) : BodyOut :=
  let p5 : List Act := [Act.emit (Ev.progress 5)]
  match env.openClip with
  | PyRes.raised m =>
      -- lines 101-105: open failed, emit and return; clip was never assigned
      ⟨p5 ++ [Act.emit (Ev.errored ("Failed to open input video:\n" ++ m))],
       false, [], none⟩
  | PyRes.ok =>
    let aOpen := p5 ++ [Act.openHandle]
    if !env.hasAudio then
      -- line 109-111: emit, fall through to the close at 135, then the
      -- missing-file check at line 140; the second emit there is guarded
      -- by the always-truthy signal test (line 143) and never fires
      ⟨aOpen ++ [Act.emit (Ev.errored "Input video has no audio track."),
                 Act.closeHandle] ++
         (if errorSignalTruthy then []
          else [Act.emit (Ev.errored "Audio extraction failed (no output file).")]),
       false, [], none⟩
    else if !env.audioWritable then
      -- lines 116-119: sanity branch, emit and fall through like the above
      ⟨aOpen ++ [Act.emit (Ev.errored "Internal error during audio processing (MoviePy)."),
                 Act.closeHandle] ++
         (if errorSignalTruthy then []
          else [Act.emit (Ev.errored "Audio extraction failed (no output file).")]),
       false, [], none⟩
    else
      match env.writeAudio with
      | PyRes.raised m =>
          -- lines 126-131: emit and return before the close on line 135,
          -- so the clip is still open for the finally block
          ⟨aOpen ++ [Act.writeAudioCall,
                     Act.emit (Ev.errored ("Failed to extract audio:\n" ++ m))],
           true, [], none⟩
      | PyRes.ok =>
        let a1 := aOpen ++ [Act.writeAudioCall, Act.createFile 1 origWav,
                            Act.emit (Ev.progress 20), Act.closeHandle]
        if !env.running1 then ⟨a1, false, [origWav], none⟩ else
        match env.initDf with
        | PyRes.raised m => ⟨a1 ++ [Act.initModelCall], false, [origWav], some m⟩
        | PyRes.ok =>
          match env.loadAudio with
          | PyRes.raised m =>
              ⟨a1 ++ [Act.initModelCall, Act.loadAudioCall], false, [origWav], some m⟩
          | PyRes.ok =>
            let a2 := a1 ++ [Act.initModelCall, Act.loadAudioCall,
                             Act.emit (Ev.progress 40)]
            if !env.running2 then ⟨a2, false, [origWav], none⟩ else
            match env.enhanceRes with
            | EnhRes.raised m =>
                ⟨a2 ++ [Act.enhanceCall j.atten_lim_db], false, [origWav], some m⟩
            | EnhRes.returned buf =>
              let a3 := a2 ++ [Act.enhanceCall j.atten_lim_db,
                               Act.emit (Ev.progress 70)]
              if !env.running3 then ⟨a3, false, [origWav], none⟩ else
              match buf with
              | none =>
                  -- lines 172-175: None check precedes save_audio
                  ⟨a3 ++ [Act.emit (Ev.errored "Denoising produced no audio data.")],
                   false, [origWav], none⟩
              | some _ =>
                match env.saveAudio with
                | PyRes.raised m =>
                    ⟨a3 ++ [Act.saveAudioCall,
                            Act.emit (Ev.errored ("Failed to save denoised audio:\n" ++ m))],
                     false, [origWav], none⟩
                | PyRes.ok =>
                  let a4 := a3 ++ [Act.saveAudioCall, Act.createFile 1 enhWav,
                                   Act.emit (Ev.progress 80)]
                  if !env.running4 then ⟨a4, false, [origWav, enhWav], none⟩ else
                  let cmd := remuxBackCmd "ffmpeg" sanitized enhWav j.output_video
                  match env.remuxBack with
                  | FfmpegRes.fileNotFound =>
                      ⟨a4 ++ [Act.emit (Ev.errored "FFmpeg executable not found.")],
                       false, [origWav, enhWav], none⟩
                  | FfmpegRes.calledProcessError stderr stdout =>
                      ⟨a4 ++ [Act.invokeTool cmd, Act.outputHanded j.output_video,
                              Act.emit (Ev.errored
                                ("FFmpeg error:\n" ++ pyOr stderr stdout "Unknown FFmpeg error"))],
                       false, [origWav, enhWav], none⟩
                  | FfmpegRes.otherError m =>
                      ⟨a4 ++ [Act.emit (Ev.errored
                                ("Unexpected error during FFmpeg processing: " ++ m))],
                       false, [origWav, enhWav], none⟩
                  | FfmpegRes.exitZero =>
                      ⟨a4 ++ [Act.invokeTool cmd, Act.outputHanded j.output_video,
                              Act.emit (Ev.progress 100),
                              Act.emit (Ev.finished j.output_video
                                ("Successfully denoised and saved to:\n" ++ j.output_video))],
                       false, [origWav, enhWav], none⟩

/-- Whether `_cleanup`'s `os.remove` succeeds for a given file name. -/
def removeOk (env : Env) (name : String) : Bool :=
  if name = origWav then env.removeOrigOk
  else if name = enhWav then env.removeEnhOk
  else true

/-- `DenoiseWorker._cleanup` (lines 257-279): remove each file listed in the
temp dir, tolerating (and only logging) individual failures, then `os.rmdir`
the directory, which succeeds exactly when it ended up empty. -/
def cleanupActs (env : Env) (files : List String) : List Act :=
  Act.cleanupCall 1 ::
    ((files.filter (removeOk env)).map (Act.removeFile 1) ++
      (if files.all (removeOk env) then [Act.removeDir 1] else []))

/-- `DenoiseWorker.run` (lines 80-255): make dir 1, run the try body, then
the outer `except` (lines 238-244, whose emit is dead because of the
always-truthy signal test) and the `finally` block (close the clip if still
open, then `_cleanup`). -/
def runWorker (j : Job) (sanitized : String) (env : Env) : List Act :=
  let b := runTryBody j sanitized env
  Act.mkTempDir 1 ::
    (b.acts ++
      (match b.escaped with
       | some m =>
           if errorSignalTruthy then []
           else [Act.emit (Ev.errored ("An unexpected error occurred:\n" ++ m))]
       | none => []) ++
      (if b.clipOpen then [Act.closeHandle] else []) ++
      cleanupActs env b.files)

/-- Outcome of constructing and running one worker. -/
structure JobResult where
  /-- an exception escaped `__init__` uncaught (the worker never ran) -/
  crashed : Bool
  acts : List Act
deriving DecidableEq, Repr

/-- One whole job: `DenoiseWorker.__init__` (lines 71-78) calls `remux` with
no exception handling, so a non-zero sanitize exit crashes construction and
the thread is never started; otherwise `run` executes against the oracle. -/
def runJob (j : Job) (env : Env) : JobResult :=
  if env.remuxExitZero then
    { crashed := false,
      acts := remuxActs j.input_video true ++
        runWorker j (remuxOut j.input_video) env }
  else
    { crashed := true, acts := remuxActs j.input_video false }

/-- Events delivered on the worker's signals, in order. -/
def events (acts : List Act) : List Ev :=
  acts.filterMap (fun a => match a with | Act.emit e => some e | _ => none)

/-- Terminal events: everything but progress. -/
def isTerminal : Ev → Bool
  | Ev.progress _ => false
  | _ => true

def terminalEvents (acts : List Act) : List Ev := (events acts).filter isTerminal

/-- The percent values delivered on the progress signal, in order. -/
def progressVals (acts : List Act) : List Nat :=
  acts.filterMap (fun a => match a with
    | Act.emit (Ev.progress n) => some n
    | _ => none)

def checkpoints : List Nat := [5, 20, 40, 70, 80, 100]

def dirsCreated (acts : List Act) : List Nat :=
  acts.filterMap (fun a => match a with | Act.mkTempDir d => some d | _ => none)

def dirsRemoved (acts : List Act) : List Nat :=
  acts.filterMap (fun a => match a with | Act.removeDir d => some d | _ => none)

/-- Temp directories still on disk after the job ends. -/
def remainingDirs (acts : List Act) : List Nat :=
  (dirsCreated acts).filter (fun d => !(dirsRemoved acts).contains d)

def filesCreated (acts : List Act) : List (Nat × String) :=
  acts.filterMap (fun a => match a with | Act.createFile d n => some (d, n) | _ => none)

def filesRemoved (acts : List Act) : List (Nat × String) :=
  acts.filterMap (fun a => match a with | Act.removeFile d n => some (d, n) | _ => none)

/-- Scratch files still on disk after the job ends (the final output file is
not scratch and is tracked by `outputHanded` instead). -/
def remainingFiles (acts : List Act) : List (Nat × String) :=
  (filesCreated acts).filter (fun f => !(filesRemoved acts).contains f)

def handleOpens (acts : List Act) : Nat := acts.count Act.openHandle

def handleCloses (acts : List Act) : Nat := acts.count Act.closeHandle

/-- How many times the output path is handed to the external tool. -/
def outputWrites (acts : List Act) : Nat :=
  (acts.filterMap (fun a => match a with | Act.outputHanded p => some p | _ => none)).length

def PyRes.isOk : PyRes → Bool
  | PyRes.ok => true
  | PyRes.raised _ => false

def EnhRes.gotSamples : EnhRes → Bool
  | EnhRes.returned (some _) => true
  | _ => false

/-- Conditions under which the try body itself reaches the remux-back
invocation: every stage of `run` succeeded and no poll saw the stop flag. -/
def pipelineStagesOk (env : Env) : Bool :=
  env.openClip.isOk && env.hasAudio && env.audioWritable &&
    env.writeAudio.isOk && env.running1 && env.initDf.isOk && env.loadAudio.isOk &&
    env.running2 && env.enhanceRes.gotSamples && env.running3 &&
    env.saveAudio.isOk && env.running4

/-- All conditions under which a job reaches the remux-back invocation:
construction (sanitize) succeeded, every earlier stage succeeded and no
poll saw the stop flag. -/
def reachesRemuxBack (env : Env) : Bool :=
  env.remuxExitZero && pipelineStagesOk env

/-- All conditions under which control reaches the buffer check before
`save_audio` (line 172). -/
def reachesPersistCheck (env : Env) : Bool :=
  env.remuxExitZero && env.openClip.isOk && env.hasAudio && env.audioWritable &&
    env.writeAudio.isOk && env.running1 && env.initDf.isOk && env.loadAudio.isOk &&
    env.running2 && env.running3

/-- Every stage succeeds and cancellation is never requested. -/
def allStagesOk (env : Env) : Bool :=
  reachesRemuxBack env && (env.remuxBack = FfmpegRes.exitZero)

/-- A fixed concrete job used for concrete evaluations. -/
def jobA : Job := { input_video := "in.mp4", output_video := "out.mp4", atten_lim_db := none }

/-- Oracle for a fully successful run. -/
def envAllOk : Env :=
  { remuxExitZero := true, openClip := PyRes.ok, hasAudio := true,
    audioWritable := true, writeAudio := PyRes.ok,
    running1 := true, running2 := true, running3 := true, running4 := true,
    initDf := PyRes.ok, loadAudio := PyRes.ok,
    enhanceRes := EnhRes.returned (some [1, 2, 3]), saveAudio := PyRes.ok,
    remuxBack := FfmpegRes.exitZero, removeOrigOk := true, removeEnhOk := true }

/-- Oracle where model initialization (`init_df`, line 155) raises, for
example because the bundled model directory is missing. -/
def envInitRaise : Env := { envAllOk with initDf := PyRes.raised "model dir missing" }

/-- Oracle where the inference call (`enhance`, line 164) raises. -/
def envEnhRaise : Env := { envAllOk with enhanceRes := EnhRes.raised "inference failed" }

/-- Oracle where inference returns an empty (but not `None`) buffer and the
write of the empty file succeeds. -/
def envEmptyBuf : Env := { envAllOk with enhanceRes := EnhRes.returned (some []) }

/-- Oracle where inference returns `None`. -/
def envEnhNone : Env := { envAllOk with enhanceRes := EnhRes.returned none }

/-- Oracle for an input container with no audio stream. -/
def envNoAudio : Env := { envAllOk with hasAudio := false }

/-- Oracle where the sanitize ffmpeg process exits non-zero. -/
def envRemuxFail : Env := { envAllOk with remuxExitZero := false }

/-- Oracle where `stop()` was called before `run` started: every poll of
`_is_running` reads false. -/
def envEarlyStop : Env :=
  { envAllOk with running1 := false, running2 := false,
                  running3 := false, running4 := false }

/-- Oracle where cancellation lands between extraction and the first poll. -/
def envStopAtFirstPoll : Env :=
  { envAllOk with running1 := false, running2 := false,
                  running3 := false, running4 := false,
                  initDf := PyRes.raised "never reached" }

/-- Oracle where `save_audio` raises. -/
def envSaveFail : Env := { envAllOk with saveAudio := PyRes.raised "disk full" }

/-- The media handle is opened at most once and is closed again by the time
the `finally` block finishes (`clipOpen` says the close still has to happen
there). -/
def HandleBalanced (b : BodyOut) : Prop :=
  handleOpens b.acts = handleCloses b.acts + (if b.clipOpen then 1 else 0) ∧
    handleOpens b.acts ≤ 1

/-- The percents emitted by the try body are an initial segment of the fixed
checkpoint list. -/
def ProgressPrefixProp (b : BodyOut) : Prop :=
  ∃ n, progressVals b.acts = checkpoints.take n

/-- Stages behind a `_is_running` poll do not run once that poll reads
false. -/
def CancelGuardProp (env : Env) (b : BodyOut) : Prop :=
  (env.running1 = false →
    Act.initModelCall ∉ b.acts ∧ (∀ a, Act.enhanceCall a ∉ b.acts) ∧
      Act.saveAudioCall ∉ b.acts ∧ (∀ p, Act.outputHanded p ∉ b.acts)) ∧
  (env.running2 = false →
    (∀ a, Act.enhanceCall a ∉ b.acts) ∧ Act.saveAudioCall ∉ b.acts ∧
      (∀ p, Act.outputHanded p ∉ b.acts)) ∧
  (env.running3 = false →
    Act.saveAudioCall ∉ b.acts ∧ (∀ p, Act.outputHanded p ∉ b.acts)) ∧
  (env.running4 = false → ∀ p, Act.outputHanded p ∉ b.acts)

/-- The output path is handed to ffmpeg at most once, and only by the
remux-back invocation on the all-stages-succeeded path. -/
def RemuxInvokeProp (j : Job) (s : String) (env : Env) (b : BodyOut) : Prop :=
  outputWrites b.acts ≤ 1 ∧
    ∀ p, Act.outputHanded p ∈ b.acts →
      p = j.output_video ∧ pipelineStagesOk env = true ∧
        Act.invokeTool (remuxBackCmd "ffmpeg" s enhWav j.output_video) ∈ b.acts

/-- Ledger of the try body's filesystem actions: it creates exactly the
files it reports in `files` (all inside dir 1), removes nothing, makes no
directory, and `files` is one of three concrete lists. -/
def FilesLedgerProp (b : BodyOut) : Prop :=
  filesCreated b.acts = b.files.map (fun n => (1, n)) ∧
    dirsCreated b.acts = [] ∧ dirsRemoved b.acts = [] ∧
    filesRemoved b.acts = [] ∧
    (b.files = [] ∨ b.files = [origWav] ∨ b.files = [origWav, enhWav])

/- ### Helper lemmas about the fixed wrapper segments -/

theorem open_not_mem_cleanup (env : Env) (files : List String) :
    Act.openHandle ∉ cleanupActs env files := by
  simp only [cleanupActs, List.mem_cons, List.mem_append]
  push_neg
  refine ⟨by simp, by simp, ?_⟩
  split <;> simp

theorem close_not_mem_cleanup (env : Env) (files : List String) :
    Act.closeHandle ∉ cleanupActs env files := by
  simp only [cleanupActs, List.mem_cons, List.mem_append]
  push_neg
  refine ⟨by simp, by simp, ?_⟩
  split <;> simp

theorem body_handleBalanced (j : Job) (s : String) (env : Env) :
    HandleBalanced (runTryBody j s env) := by
  unfold runTryBody
  repeat' split
  all_goals
    simp [HandleBalanced, handleOpens, handleCloses, List.count_append,
      List.count_cons, errorSignalTruthy]

/-- C10: on every exit path of `run` — open failure, write failure,
no-audio, cancellation, any stage failure, or success — the media handle is
opened at most once and every open is matched by a close before `run`
returns (the close happens either on line 135 or in the `finally` block on
line 249). -/
theorem mediaHandleAlwaysReleased (j : Job) (env : Env) :
    handleOpens (runJob j env).acts = handleCloses (runJob j env).acts ∧
      handleOpens (runJob j env).acts ≤ 1 := by
  have hb := body_handleBalanced j (remuxOut j.input_video) env
  simp only [runJob, runWorker]
  rcases h : runTryBody j (remuxOut j.input_video) env with ⟨acts, clipOpen, files, escaped⟩
  rw [h] at hb
  obtain ⟨hb1, hb2⟩ := hb
  have hc1 := List.count_eq_zero_of_not_mem (open_not_mem_cleanup env files)
  have hc2 := List.count_eq_zero_of_not_mem (close_not_mem_cleanup env files)
  cases hre : env.remuxExitZero <;>
    cases clipOpen <;>
    cases escaped <;>
    simp_all [handleOpens, handleCloses, remuxActs,
      List.count_append, List.count_cons, errorSignalTruthy]

theorem mem_cleanup (env : Env) (files : List String) (a : Act)
    (h : a ∈ cleanupActs env files) :
    a = Act.cleanupCall 1 ∨ (∃ n, a = Act.removeFile 1 n) ∨ a = Act.removeDir 1 := by
  simp only [cleanupActs, List.mem_cons, List.mem_append, List.mem_map] at h
  rcases h with h | ⟨x, hx, rfl⟩ | h
  · exact Or.inl h
  · exact Or.inr (Or.inl ⟨x, rfl⟩)
  · rw [apply_ite (a ∈ ·)] at h
    split at h <;> simp_all

theorem events_cleanup (env : Env) (files : List String) :
    events (cleanupActs env files) = [] := by
  refine List.filterMap_eq_nil_iff.mpr (fun a ha => ?_)
  rcases mem_cleanup env files a ha with h | ⟨n, h⟩ | h <;> subst h <;> rfl

theorem progress_cleanup (env : Env) (files : List String) :
    progressVals (cleanupActs env files) = [] := by
  refine List.filterMap_eq_nil_iff.mpr (fun a ha => ?_)
  rcases mem_cleanup env files a ha with h | ⟨n, h⟩ | h <;> subst h <;> rfl

theorem outputs_cleanup (env : Env) (files : List String) :
    outputWrites (cleanupActs env files) = 0 := by
  have : (cleanupActs env files).filterMap
      (fun a => match a with | Act.outputHanded p => some p | _ => none) = [] := by
    refine List.filterMap_eq_nil_iff.mpr (fun a ha => ?_)
    rcases mem_cleanup env files a ha with h | ⟨n, h⟩ | h <;> subst h <;> rfl
  simp [outputWrites, this]

theorem filesCreated_cleanup (env : Env) (files : List String) :
    filesCreated (cleanupActs env files) = [] := by
  refine List.filterMap_eq_nil_iff.mpr (fun a ha => ?_)
  rcases mem_cleanup env files a ha with h | ⟨n, h⟩ | h <;> subst h <;> rfl

theorem dirsCreated_cleanup (env : Env) (files : List String) :
    dirsCreated (cleanupActs env files) = [] := by
  refine List.filterMap_eq_nil_iff.mpr (fun a ha => ?_)
  rcases mem_cleanup env files a ha with h | ⟨n, h⟩ | h <;> subst h <;> rfl

theorem dirsRemoved_cleanup (env : Env) (files : List String) :
    dirsRemoved (cleanupActs env files) =
      if files.all (removeOk env) then [1] else [] := by
  simp only [cleanupActs, dirsRemoved, List.filterMap_cons, List.filterMap_append,
    List.filterMap_map]
  have hmap : (files.filter (removeOk env)).filterMap
      ((fun a => match a with | Act.removeDir d => some d | _ => none) ∘ Act.removeFile 1) = [] := by
    refine List.filterMap_eq_nil_iff.mpr (fun a _ => rfl)
  rw [hmap]
  split <;> rfl

theorem filesRemoved_cleanup (env : Env) (files : List String) :
    filesRemoved (cleanupActs env files) =
      (files.filter (removeOk env)).map (fun n => (1, n)) := by
  simp only [cleanupActs, filesRemoved, List.filterMap_cons, List.filterMap_append,
    List.filterMap_map]
  have hmap : (files.filter (removeOk env)).filterMap
      ((fun a => match a with | Act.removeFile d n => some (d, n) | _ => none) ∘ Act.removeFile 1) =
      (files.filter (removeOk env)).map (fun n => (1, n)) := by
    rw [List.filterMap_eq_map_iff_forall_eq_some.mpr ?_]
    intro a _
    rfl
  rw [hmap]
  split <;> simp

theorem events_remuxActs (src : String) (ok : Bool) :
    events (remuxActs src ok) = [] := by
  cases ok <;> rfl

theorem progress_remuxActs (src : String) (ok : Bool) :
    progressVals (remuxActs src ok) = [] := by
  cases ok <;> rfl

theorem PyRes.isOk_iff (x : PyRes) : x.isOk = true ↔ x = PyRes.ok := by
  cases x <;> simp [PyRes.isOk]

theorem EnhRes.gotSamples_ex (e : EnhRes) (h : e.gotSamples = true) :
    ∃ l, e = EnhRes.returned (some l) := by
  cases e with
  | raised m => simp [EnhRes.gotSamples] at h
  | returned o =>
    cases o with
    | none => simp [EnhRes.gotSamples] at h
    | some l => exact ⟨l, rfl⟩

theorem body_progressPrefix (j : Job) (s : String) (env : Env) :
    ProgressPrefixProp (runTryBody j s env) := by
  unfold runTryBody
  repeat' split
  all_goals
    simp only [ProgressPrefixProp]
  all_goals
    first
    | exact ⟨1, rfl⟩
    | exact ⟨2, rfl⟩
    | exact ⟨3, rfl⟩
    | exact ⟨4, rfl⟩
    | exact ⟨5, rfl⟩
    | exact ⟨6, rfl⟩

theorem body_progressSuccess (j : Job) (s : String) (env : Env)
    (h : allStagesOk env = true) :
    progressVals (runTryBody j s env).acts = checkpoints := by
  obtain ⟨re, oc, ha, aw, wa, r1, r2, r3, r4, idf, la, er, sa, rb, ro, rn⟩ := env
  simp only [allStagesOk, reachesRemuxBack, pipelineStagesOk, Bool.and_eq_true,
    decide_eq_true_eq, PyRes.isOk_iff] at h
  obtain ⟨⟨h1, ⟨⟨⟨⟨⟨⟨⟨⟨⟨⟨⟨h2, h3⟩, h4⟩, h5⟩, h6⟩, h7⟩, h8⟩, h9⟩, h10⟩, h11⟩, h12⟩, h13⟩⟩, h14⟩ := h
  obtain ⟨l, hl⟩ := EnhRes.gotSamples_ex _ h10
  subst h1 h2 h3 h4 h5 h6 h7 h8 h9 h11 h12 h13 h14 hl
  rfl

theorem progress_runJob (j : Job) (env : Env) :
    progressVals (runJob j env).acts =
      if env.remuxExitZero then
        progressVals (runTryBody j (remuxOut j.input_video) env).acts
      else [] := by
  simp only [runJob, runWorker]
  rcases h : runTryBody j (remuxOut j.input_video) env with ⟨acts, co, fs, esc⟩
  cases hre : env.remuxExitZero <;> cases co <;> cases esc <;>
    simp_all [progressVals, List.filterMap_append, remuxActs, errorSignalTruthy]
  all_goals
    intro a ha
    rcases mem_cleanup _ _ a ha with hm | ⟨n, hm⟩ | hm <;> subst hm <;> rfl

/-- C6: the percent values a job delivers are always an initial segment of
the fixed checkpoint list [5, 20, 40, 70, 80, 100] (emitted at lines 91,
125, 159, 166, 179, 235), in that order — hence non-decreasing — and a run
in which every stage succeeds and cancellation is never requested delivers
exactly that sequence. -/
theorem progressCheckpointsFixedAndMonotone (j : Job) (env : Env) :
    (∃ n, progressVals (runJob j env).acts = checkpoints.take n) ∧
      (allStagesOk env = true → progressVals (runJob j env).acts = checkpoints) := by
  rw [progress_runJob]
  constructor
  · cases hre : env.remuxExitZero
    · exact ⟨0, by simp⟩
    · simpa using body_progressPrefix j (remuxOut j.input_video) env
  · intro h
    have hre : env.remuxExitZero = true := by
      have := h
      simp only [allStagesOk, reachesRemuxBack, Bool.and_eq_true] at this
      exact this.1.1
    rw [if_pos hre]
    exact body_progressSuccess j (remuxOut j.input_video) env h

theorem initModel_not_mem_cleanup (env : Env) (files : List String) :
    Act.initModelCall ∉ cleanupActs env files := by
  intro h
  rcases mem_cleanup env files _ h with hm | ⟨n, hm⟩ | hm <;> simp at hm

theorem enhance_not_mem_cleanup (env : Env) (files : List String) (a : Option Int) :
    Act.enhanceCall a ∉ cleanupActs env files := by
  intro h
  rcases mem_cleanup env files _ h with hm | ⟨n, hm⟩ | hm <;> simp at hm

theorem save_not_mem_cleanup (env : Env) (files : List String) :
    Act.saveAudioCall ∉ cleanupActs env files := by
  intro h
  rcases mem_cleanup env files _ h with hm | ⟨n, hm⟩ | hm <;> simp at hm

theorem output_not_mem_cleanup (env : Env) (files : List String) (p : String) :
    Act.outputHanded p ∉ cleanupActs env files := by
  intro h
  rcases mem_cleanup env files _ h with hm | ⟨n, hm⟩ | hm <;> simp at hm

theorem initModel_not_mem_remux (src : String) (ok : Bool) :
    Act.initModelCall ∉ remuxActs src ok := by
  cases ok <;> simp [remuxActs]

theorem enhance_not_mem_remux (src : String) (ok : Bool) (a : Option Int) :
    Act.enhanceCall a ∉ remuxActs src ok := by
  cases ok <;> simp [remuxActs]

theorem save_not_mem_remux (src : String) (ok : Bool) :
    Act.saveAudioCall ∉ remuxActs src ok := by
  cases ok <;> simp [remuxActs]

theorem output_not_mem_remux (src : String) (ok : Bool) (p : String) :
    Act.outputHanded p ∉ remuxActs src ok := by
  cases ok <;> simp [remuxActs]

theorem mem_runJob_cases (j : Job) (env : Env) (a : Act)
    (h : a ∈ (runJob j env).acts) :
    a ∈ remuxActs j.input_video env.remuxExitZero ∨
      (env.remuxExitZero = true ∧
        (a = Act.mkTempDir 1 ∨
          a ∈ (runTryBody j (remuxOut j.input_video) env).acts ∨
          a = Act.closeHandle ∨
          a ∈ cleanupActs env (runTryBody j (remuxOut j.input_video) env).files)) := by
  simp only [runJob, runWorker] at h
  rcases hq : runTryBody j (remuxOut j.input_video) env with ⟨acts, co, fs, esc⟩
  rw [hq] at h
  cases hre : env.remuxExitZero <;> rw [hre] at h <;> simp only [if_true, if_false] at h
  · exact Or.inl h
  · cases co <;> cases esc <;>
      simp only [errorSignalTruthy, if_true, List.mem_append, List.mem_cons,
        List.append_nil, List.nil_append] at h <;>
      tauto

theorem body_cancelGuard (j : Job) (s : String) (env : Env) :
    CancelGuardProp env (runTryBody j s env) := by
  unfold runTryBody
  repeat' split
  all_goals simp_all [CancelGuardProp]

theorem body_remuxInvoke (j : Job) (s : String) (env : Env) :
    RemuxInvokeProp j s env (runTryBody j s env) := by
  unfold runTryBody
  repeat' split
  all_goals
    refine ⟨by simp [outputWrites], ?_⟩
    intro p hp
    simp_all [pipelineStagesOk, PyRes.isOk, EnhRes.gotSamples]

theorem body_filesLedger (j : Job) (s : String) (env : Env) :
    FilesLedgerProp (runTryBody j s env) := by
  unfold runTryBody
  repeat' split
  all_goals
    simp [FilesLedgerProp, filesCreated, dirsCreated, dirsRemoved, filesRemoved,
      List.filterMap_append]

theorem events_runJob (j : Job) (env : Env) :
    events (runJob j env).acts =
      if env.remuxExitZero then
        events (runTryBody j (remuxOut j.input_video) env).acts
      else [] := by
  simp only [runJob, runWorker]
  rcases h : runTryBody j (remuxOut j.input_video) env with ⟨acts, co, fs, esc⟩
  cases hre : env.remuxExitZero <;> cases co <;> cases esc <;>
    simp_all [events, List.filterMap_append, remuxActs, errorSignalTruthy]
  all_goals
    intro a ha
    rcases mem_cleanup _ _ a ha with hm | ⟨n, hm⟩ | hm <;> subst hm <;> rfl

theorem outputWrites_runJob (j : Job) (env : Env) :
    outputWrites (runJob j env).acts =
      if env.remuxExitZero then
        outputWrites (runTryBody j (remuxOut j.input_video) env).acts
      else 0 := by
  simp only [runJob, runWorker]
  rcases h : runTryBody j (remuxOut j.input_video) env with ⟨acts, co, fs, esc⟩
  cases hre : env.remuxExitZero <;> cases co <;> cases esc <;>
    simp_all [outputWrites, List.filterMap_append, List.length_append,
      remuxActs, errorSignalTruthy]
  all_goals
    intro a ha
    rcases mem_cleanup _ _ a ha with hm | ⟨n, hm⟩ | hm <;> subst hm <;> rfl

/-- C4 (amended): the cooperative cancellation flag is polled at only four
points — before model initialization (line 148), before inference
(line 161), before persisting (line 168) and before remux-back (line 188);
neither sanitize nor audio extraction is guarded.  Whenever a poll reads
false, that poll's stage and every later stage never runs, and whenever the
job was constructed the `_cleanup` call still happens. -/
theorem cancellationPollsGuardOnlyLaterStages (j : Job) (env : Env) :
    (env.running1 = false →
      Act.initModelCall ∉ (runJob j env).acts ∧
        (∀ a, Act.enhanceCall a ∉ (runJob j env).acts) ∧
        Act.saveAudioCall ∉ (runJob j env).acts ∧
        (∀ p, Act.outputHanded p ∉ (runJob j env).acts)) ∧
    (env.running2 = false →
      (∀ a, Act.enhanceCall a ∉ (runJob j env).acts) ∧
        Act.saveAudioCall ∉ (runJob j env).acts ∧
        (∀ p, Act.outputHanded p ∉ (runJob j env).acts)) ∧
    (env.running3 = false →
      Act.saveAudioCall ∉ (runJob j env).acts ∧
        (∀ p, Act.outputHanded p ∉ (runJob j env).acts)) ∧
    (env.running4 = false → ∀ p, Act.outputHanded p ∉ (runJob j env).acts) ∧
    (env.remuxExitZero = true → Act.cleanupCall 1 ∈ (runJob j env).acts) := by
  have hb := body_cancelGuard j (remuxOut j.input_video) env
  simp only [CancelGuardProp] at hb
  obtain ⟨hb1, hb2, hb3, hb4⟩ := hb
  refine ⟨?_, ?_, ?_, ?_, ?_⟩
  · intro hr
    obtain ⟨k1, k2, k3, k4⟩ := hb1 hr
    refine ⟨?_, fun a => ?_, ?_, fun p => ?_⟩ <;>
      intro hmem <;>
      rcases mem_runJob_cases j env _ hmem with hx | ⟨hre2, hx | hx | hx | hx⟩ <;>
      first
      | exact initModel_not_mem_remux _ _ hx
      | exact enhance_not_mem_remux _ _ _ hx
      | exact save_not_mem_remux _ _ hx
      | exact output_not_mem_remux _ _ _ hx
      | exact initModel_not_mem_cleanup _ _ hx
      | exact enhance_not_mem_cleanup _ _ _ hx
      | exact save_not_mem_cleanup _ _ hx
      | exact output_not_mem_cleanup _ _ _ hx
      | exact k1 hx
      | exact k2 a hx
      | exact k3 hx
      | exact k4 p hx
      | simp at hx
  · intro hr
    obtain ⟨k2, k3, k4⟩ := hb2 hr
    refine ⟨fun a => ?_, ?_, fun p => ?_⟩ <;>
      intro hmem <;>
      rcases mem_runJob_cases j env _ hmem with hx | ⟨hre2, hx | hx | hx | hx⟩ <;>
      first
      | exact enhance_not_mem_remux _ _ _ hx
      | exact save_not_mem_remux _ _ hx
      | exact output_not_mem_remux _ _ _ hx
      | exact enhance_not_mem_cleanup _ _ _ hx
      | exact save_not_mem_cleanup _ _ hx
      | exact output_not_mem_cleanup _ _ _ hx
      | exact k2 a hx
      | exact k3 hx
      | exact k4 p hx
      | simp at hx
  · intro hr
    obtain ⟨k3, k4⟩ := hb3 hr
    refine ⟨?_, fun p => ?_⟩ <;>
      intro hmem <;>
      rcases mem_runJob_cases j env _ hmem with hx | ⟨hre2, hx | hx | hx | hx⟩ <;>
      first
      | exact save_not_mem_remux _ _ hx
      | exact output_not_mem_remux _ _ _ hx
      | exact save_not_mem_cleanup _ _ hx
      | exact output_not_mem_cleanup _ _ _ hx
      | exact k3 hx
      | exact k4 p hx
      | simp at hx
  · intro hr p
    have k4 := hb4 hr
    intro hmem
    rcases mem_runJob_cases j env _ hmem with hx | ⟨hre2, hx | hx | hx | hx⟩ <;>
      first
      | exact output_not_mem_remux _ _ _ hx
      | exact output_not_mem_cleanup _ _ _ hx
      | exact k4 p hx
      | simp at hx
  · intro hre
    simp only [runJob, hre, if_true, runWorker]
    simp [cleanupActs, List.mem_append, List.mem_cons]

/-- C9: the remux-back ffmpeg invocation stream-copies the video
("-c:v" "copy") from the sanitized input (input #0, mapped "0:v:0"),
encodes the enhanced audio at the fixed bitrate ("-c:a" "aac",
"-b:a" "320k"), trims to the shorter duration ("-shortest") and writes
directly to the job's output path (the final argument); the output path is
handed to the external tool at most once per job, only by this invocation,
and only on the path on which construction and every earlier stage
succeeded and no cancellation poll fired. -/
theorem remuxBackCommandAndSingleOutputWrite (j : Job) (env : Env) :
    (∀ x i e o,
      (remuxBackCmd x i e o)[12]? = some "-c:v" ∧
      (remuxBackCmd x i e o)[13]? = some "copy" ∧
      (remuxBackCmd x i e o)[14]? = some "-c:a" ∧
      (remuxBackCmd x i e o)[15]? = some "aac" ∧
      (remuxBackCmd x i e o)[16]? = some "-b:a" ∧
      (remuxBackCmd x i e o)[17]? = some "320k" ∧
      (remuxBackCmd x i e o)[18]? = some "-shortest" ∧
      (remuxBackCmd x i e o)[5]? = some i ∧
      (remuxBackCmd x i e o)[9]? = some "0:v:0" ∧
      (remuxBackCmd x i e o)[19]? = some o ∧
      (remuxBackCmd x i e o).length = 20) ∧
    outputWrites (runJob j env).acts ≤ 1 ∧
    (∀ p, Act.outputHanded p ∈ (runJob j env).acts →
      p = j.output_video ∧ reachesRemuxBack env = true ∧
        Act.invokeTool (remuxBackCmd "ffmpeg" (remuxOut j.input_video) enhWav j.output_video) ∈
          (runJob j env).acts) := by
  have hb := body_remuxInvoke j (remuxOut j.input_video) env
  simp only [RemuxInvokeProp] at hb
  obtain ⟨hb1, hb2⟩ := hb
  refine ⟨?_, ?_, ?_⟩
  · intro x i e o
    exact ⟨rfl, rfl, rfl, rfl, rfl, rfl, rfl, rfl, rfl, rfl, rfl⟩
  · rw [outputWrites_runJob]
    split
    · exact hb1
    · exact Nat.zero_le 1
  · intro p hp
    rcases mem_runJob_cases j env _ hp with hx | ⟨hre, hx | hx | hx | hx⟩
    · exact absurd hx (output_not_mem_remux _ _ _)
    · simp at hx
    · obtain ⟨hp1, hp2, hp3⟩ := hb2 p hx
      refine ⟨hp1, by simp [reachesRemuxBack, hre, hp2], ?_⟩
      simp only [runJob, hre, if_true, runWorker]
      simp [List.mem_append, List.mem_cons, hp3]
    · simp at hx
    · exact absurd hx (output_not_mem_cleanup _ _ _)

/-- C3 (amended): when the sanitize remux tool exits non-zero, the
`CalledProcessError` raised by `subprocess.run(check=True)` inside `remux`
propagates uncaught out of `DenoiseWorker.__init__`: the job crashes before
`run` ever starts and no ErrorEvent (indeed no event at all) is emitted;
the tool's diagnostic output is not captured either, since `remux` runs the
subprocess without output capture. -/
theorem sanitizeFailurePropagatesUncaught (j : Job) (env : Env)
    (h : env.remuxExitZero = false) :
    (runJob j env).crashed = true ∧ events (runJob j env).acts = [] := by
  constructor
  · simp [runJob, h]
  · rw [events_runJob, h]
    simp

/-- C5 (amended): for an input whose container has no audio stream, the job
terminates with exactly one generic ErrorEvent carrying the message
"Input video has no audio track." — delivered on the same `error` signal as
every other failure, there being no distinct NoAudioTrack outcome — and no
model initialization, enhancement, persist or remux-back step runs. -/
theorem noAudioEmitsSingleErrorAndSkipsLaterStages (j : Job) (env : Env)
    (h1 : env.remuxExitZero = true) (h2 : env.openClip = PyRes.ok)
    (h3 : env.hasAudio = false) :
    terminalEvents (runJob j env).acts =
        [Ev.errored "Input video has no audio track."] ∧
      Act.initModelCall ∉ (runJob j env).acts ∧
      (∀ a, Act.enhanceCall a ∉ (runJob j env).acts) ∧
      Act.saveAudioCall ∉ (runJob j env).acts ∧
      (∀ p, Act.outputHanded p ∉ (runJob j env).acts) := by
  obtain ⟨re, oc, ha, aw, wa, r1, r2, r3, r4, idf, la, er, sa, rb, ro, rn⟩ := env
  obtain rfl : re = true := h1
  obtain rfl : oc = PyRes.ok := h2
  obtain rfl : ha = false := h3
  refine ⟨rfl, ?_, fun a => ?_, ?_, fun p => ?_⟩ <;>
    intro hmem <;>
    rcases mem_runJob_cases _ _ _ hmem with hx | ⟨hre2, hx | hx | hx | hx⟩ <;>
    first
    | exact initModel_not_mem_remux _ _ hx
    | exact enhance_not_mem_remux _ _ _ hx
    | exact save_not_mem_remux _ _ hx
    | exact output_not_mem_remux _ _ _ hx
    | exact initModel_not_mem_cleanup _ _ hx
    | exact enhance_not_mem_cleanup _ _ _ hx
    | exact save_not_mem_cleanup _ _ hx
    | exact output_not_mem_cleanup _ _ _ hx
    | simp [runTryBody] at hx


theorem dirsCreated_append (a b : List Act) :
    dirsCreated (a ++ b) = dirsCreated a ++ dirsCreated b := by
  simp [dirsCreated]

theorem dirsRemoved_append (a b : List Act) :
    dirsRemoved (a ++ b) = dirsRemoved a ++ dirsRemoved b := by
  simp [dirsRemoved]

theorem filesCreated_append (a b : List Act) :
    filesCreated (a ++ b) = filesCreated a ++ filesCreated b := by
  simp [filesCreated]

theorem filesRemoved_append (a b : List Act) :
    filesRemoved (a ++ b) = filesRemoved a ++ filesRemoved b := by
  simp [filesRemoved]

theorem dirsCreated_mk_cons (d : Nat) (l : List Act) :
    dirsCreated (Act.mkTempDir d :: l) = d :: dirsCreated l := rfl

theorem dirsRemoved_mk_cons (d : Nat) (l : List Act) :
    dirsRemoved (Act.mkTempDir d :: l) = dirsRemoved l := rfl

theorem filesCreated_mk_cons (d : Nat) (l : List Act) :
    filesCreated (Act.mkTempDir d :: l) = filesCreated l := rfl

theorem filesRemoved_mk_cons (d : Nat) (l : List Act) :
    filesRemoved (Act.mkTempDir d :: l) = filesRemoved l := rfl

theorem dirsCreated_close_cons (l : List Act) :
    dirsCreated (Act.closeHandle :: l) = dirsCreated l := rfl

theorem dirsRemoved_close_cons (l : List Act) :
    dirsRemoved (Act.closeHandle :: l) = dirsRemoved l := rfl

theorem filesCreated_close_cons (l : List Act) :
    filesCreated (Act.closeHandle :: l) = filesCreated l := rfl

theorem filesRemoved_close_cons (l : List Act) :
    filesRemoved (Act.closeHandle :: l) = filesRemoved l := rfl

theorem dirsCreated_nil : dirsCreated [] = [] := rfl

theorem dirsRemoved_nil : dirsRemoved [] = [] := rfl

theorem filesCreated_nil : filesCreated [] = [] := rfl

theorem filesRemoved_nil : filesRemoved [] = [] := rfl

theorem dirsCreated_remux (src : String) (ok : Bool) :
    dirsCreated (remuxActs src ok) = [0] := by
  cases ok <;> rfl

theorem dirsRemoved_remux (src : String) (ok : Bool) :
    dirsRemoved (remuxActs src ok) = [] := by
  cases ok <;> rfl

theorem filesCreated_remux (src : String) (ok : Bool) :
    filesCreated (remuxActs src ok) =
      if ok then [(0, remuxOut src)] else [] := by
  cases ok <;> rfl

theorem filesRemoved_remux (src : String) (ok : Bool) :
    filesRemoved (remuxActs src ok) = [] := by
  cases ok <;> rfl

theorem dirsCreated_runJob (j : Job) (env : Env) :
    dirsCreated (runJob j env).acts = if env.remuxExitZero then [0, 1] else [0] := by
  have hb := body_filesLedger j (remuxOut j.input_video) env
  simp only [runJob, runWorker]
  rcases h : runTryBody j (remuxOut j.input_video) env with ⟨acts, co, fs, esc⟩
  rw [h] at hb
  simp only [FilesLedgerProp] at hb
  obtain ⟨hc, hdc, hdr, hfr, hfs⟩ := hb
  cases hre : env.remuxExitZero <;> cases co <;> cases esc <;>
    simp [hre, errorSignalTruthy, dirsCreated_append, dirsCreated_mk_cons,
      dirsCreated_close_cons, dirsCreated_nil, dirsCreated_remux,
      dirsCreated_cleanup, hdc]

theorem dirsRemoved_runJob (j : Job) (env : Env) :
    dirsRemoved (runJob j env).acts =
      if env.remuxExitZero then
        (if ((runTryBody j (remuxOut j.input_video) env).files).all (removeOk env)
         then [1] else [])
      else [] := by
  have hb := body_filesLedger j (remuxOut j.input_video) env
  simp only [runJob, runWorker]
  rcases h : runTryBody j (remuxOut j.input_video) env with ⟨acts, co, fs, esc⟩
  rw [h] at hb
  simp only [FilesLedgerProp] at hb
  obtain ⟨hc, hdc, hdr, hfr, hfs⟩ := hb
  cases hre : env.remuxExitZero <;> cases co <;> cases esc <;>
    simp [hre, errorSignalTruthy, dirsRemoved_append, dirsRemoved_mk_cons,
      dirsRemoved_close_cons, dirsRemoved_nil, dirsRemoved_remux,
      dirsRemoved_cleanup, hdr]

theorem filesCreated_runJob (j : Job) (env : Env) :
    filesCreated (runJob j env).acts =
      if env.remuxExitZero then
        (0, remuxOut j.input_video) ::
          ((runTryBody j (remuxOut j.input_video) env).files).map (fun n => (1, n))
      else [] := by
  have hb := body_filesLedger j (remuxOut j.input_video) env
  simp only [runJob, runWorker]
  rcases h : runTryBody j (remuxOut j.input_video) env with ⟨acts, co, fs, esc⟩
  rw [h] at hb
  simp only [FilesLedgerProp] at hb
  obtain ⟨hc, hdc, hdr, hfr, hfs⟩ := hb
  cases hre : env.remuxExitZero <;> cases co <;> cases esc <;>
    simp [hre, errorSignalTruthy, filesCreated_append, filesCreated_mk_cons,
      filesCreated_close_cons, filesCreated_nil, filesCreated_remux,
      filesCreated_cleanup, hc]

theorem filesRemoved_runJob (j : Job) (env : Env) :
    filesRemoved (runJob j env).acts =
      if env.remuxExitZero then
        (((runTryBody j (remuxOut j.input_video) env).files).filter
          (removeOk env)).map (fun n => (1, n))
      else [] := by
  have hb := body_filesLedger j (remuxOut j.input_video) env
  simp only [runJob, runWorker]
  rcases h : runTryBody j (remuxOut j.input_video) env with ⟨acts, co, fs, esc⟩
  rw [h] at hb
  simp only [FilesLedgerProp] at hb
  obtain ⟨hc, hdc, hdr, hfr, hfs⟩ := hb
  cases hre : env.remuxExitZero <;> cases co <;> cases esc <;>
    simp [hre, errorSignalTruthy, filesRemoved_append, filesRemoved_mk_cons,
      filesRemoved_close_cons, filesRemoved_nil, filesRemoved_remux,
      filesRemoved_cleanup, hfr]

theorem enhWav_ne_origWav : enhWav ≠ origWav := by decide

/-- C2 (amended): whenever the per-file removals in `_cleanup` succeed, the
run workspace (dir 1) and every scratch file in it are gone after any
terminal outcome, but the `remux` scratch directory (dir 0) always
survives: every remaining scratch file lives in dir 0. -/
theorem workspaceRemovedButRemuxDirPersists (j : Job) (env : Env)
    (h1 : env.removeOrigOk = true) (h2 : env.removeEnhOk = true) :
    0 ∈ remainingDirs (runJob j env).acts ∧
      1 ∉ remainingDirs (runJob j env).acts ∧
      (remainingFiles (runJob j env).acts).all (fun f => f.1 == 0) = true := by
  have hb := body_filesLedger j (remuxOut j.input_video) env
  simp only [FilesLedgerProp] at hb
  obtain ⟨hc, hdc, hdr, hfr, hfs⟩ := hb
  have hrem : ∀ n ∈ (runTryBody j (remuxOut j.input_video) env).files,
      removeOk env n = true := by
    intro n hn
    rcases hfs with hfs | hfs | hfs <;> rw [hfs] at hn <;> simp at hn <;>
      rcases hn with rfl | rfl <;> simp [removeOk, h1, h2, enhWav_ne_origWav]
  have hall : ((runTryBody j (remuxOut j.input_video) env).files).all
      (removeOk env) = true := List.all_eq_true.mpr hrem
  have hfilter : ((runTryBody j (remuxOut j.input_video) env).files).filter
      (removeOk env) = (runTryBody j (remuxOut j.input_video) env).files :=
    List.filter_eq_self.mpr hrem
  simp only [remainingDirs, remainingFiles]
  rw [dirsCreated_runJob, dirsRemoved_runJob, filesCreated_runJob,
    filesRemoved_runJob, hall, hfilter]
  rcases hfs with hfs | hfs | hfs <;> rw [hfs] <;>
    cases hre : env.remuxExitZero <;>
    simp [origWav, enhWav]

/-- C8 (amended): once control reaches the buffer check before
`save_audio`, an absent (`None`) buffer or a raising write each produce
exactly one persist ErrorEvent and the remux-back stage never runs.  (An
empty but non-`None` buffer is not rejected — see the counterexample.) -/
theorem persistFailureBlocksRemux (j : Job) (env : Env)
    (hreach : reachesPersistCheck env = true) :
    (env.enhanceRes = EnhRes.returned none →
      terminalEvents (runJob j env).acts =
          [Ev.errored "Denoising produced no audio data."] ∧
        Act.saveAudioCall ∉ (runJob j env).acts ∧
        (∀ p, Act.outputHanded p ∉ (runJob j env).acts)) ∧
    (∀ s m, env.enhanceRes = EnhRes.returned (some s) →
      env.saveAudio = PyRes.raised m →
      terminalEvents (runJob j env).acts =
          [Ev.errored ("Failed to save denoised audio:\n" ++ m)] ∧
        (∀ p, Act.outputHanded p ∉ (runJob j env).acts)) := by
  obtain ⟨re, oc, ha, aw, wa, r1, r2, r3, r4, idf, la, er, sa, rb, ro, rn⟩ := env
  simp only [reachesPersistCheck, Bool.and_eq_true, PyRes.isOk_iff] at hreach
  obtain ⟨⟨⟨⟨⟨⟨⟨⟨⟨g1, g2⟩, g3⟩, g4⟩, g5⟩, g6⟩, g7⟩, g8⟩, g9⟩, g10⟩ := hreach
  subst g1 g2 g3 g4 g5 g6 g7 g8 g9 g10
  constructor
  · intro he
    obtain rfl : er = EnhRes.returned none := he
    refine ⟨?_, ?_, fun p => ?_⟩
    · simp only [terminalEvents]
      rw [events_runJob]
      rfl
    all_goals
      intro hmem
      rcases mem_runJob_cases _ _ _ hmem with hx | ⟨hre2, hx | hx | hx | hx⟩ <;>
        first
        | exact save_not_mem_remux _ _ hx
        | exact output_not_mem_remux _ _ _ hx
        | exact save_not_mem_cleanup _ _ hx
        | exact output_not_mem_cleanup _ _ _ hx
        | simp [runTryBody] at hx
  · intro s m he hs
    obtain rfl : er = EnhRes.returned (some s) := he
    obtain rfl : sa = PyRes.raised m := hs
    refine ⟨?_, fun p => ?_⟩
    · simp only [terminalEvents]
      rw [events_runJob]
      rfl
    · intro hmem
      rcases mem_runJob_cases _ _ _ hmem with hx | ⟨hre2, hx | hx | hx | hx⟩ <;>
        first
        | exact output_not_mem_remux _ _ _ hx
        | exact output_not_mem_cleanup _ _ _ hx
        | simp [runTryBody] at hx

/-- C1: evaluation at the failing input.  When `init_df` raises (for
example, missing model directory), the exception reaches the outermost
`except` (line 238), but the guard `if not self.error.signal:` (line 243)
is always false — `self.error.signal` is the signal's non-empty signature
string — so no `UnexpectedFailure` ErrorEvent is emitted: the run finishes
with progress events 5 and 20 and zero terminal events, contradicting the
claim that every job emits exactly one terminal event. -/
theorem unhandledFaultYieldsNoTerminalEvent :
    terminalEvents (runJob jobA envInitRaise).acts = [] ∧
      progressVals (runJob jobA envInitRaise).acts = [5, 20] ∧
      (runJob jobA envInitRaise).crashed = false ∧
      Act.cleanupCall 1 ∈ (runJob jobA envInitRaise).acts := by decide

/-- C7: evaluation at the failing input.  When the `enhance` inference call
raises, the Persist stage indeed never runs, but the exception lands in the
outermost `except` whose emit is disabled by the always-truthy
`self.error.signal` guard (line 243), so no `ModelInferenceFailure`
ErrorEvent — no terminal event at all — is delivered, contradicting the
claim that the job fails with a ModelInferenceFailure ErrorEvent. -/
theorem inferenceRaiseYieldsNoErrorEventAndSkipsPersist :
    terminalEvents (runJob jobA envEnhRaise).acts = [] ∧
      Act.saveAudioCall ∉ (runJob jobA envEnhRaise).acts ∧
      progressVals (runJob jobA envEnhRaise).acts = [5, 20, 40] := by decide

/-- C2 (counterexample): a fully successful job creates two temp
directories — dir 0 in `remux` (constructor) and dir 1 in `run` — and after
the success terminal event, dir 0 and the remuxed copy of the input inside
it still exist: `_cleanup` only ever removes dir 1, so "after any terminal
outcome every temp directory created for the job no longer exists" is
false. -/
theorem allTempDirsClaimFailsOnSuccessfulJob :
    terminalEvents (runJob jobA envAllOk).acts =
        [Ev.finished "out.mp4" "Successfully denoised and saved to:\nout.mp4"] ∧
      dirsCreated (runJob jobA envAllOk).acts = [0, 1] ∧
      remainingDirs (runJob jobA envAllOk).acts = [0] ∧
      remainingFiles (runJob jobA envAllOk).acts = [(0, "remux_in.mp4")] := by decide

/-- C3 (counterexample): with the sanitize tool exiting non-zero, the job
crashes out of the constructor and the event trace is empty — no
ExternalToolFailure ErrorEvent is produced, so the claim is false at this
input. -/
theorem sanitizeToolFailureEmitsNoErrorEvent :
    (runJob jobA envRemuxFail).crashed = true ∧
      events (runJob jobA envRemuxFail).acts = [] := by decide

/-- C4 (counterexample): with cancellation requested before `run` starts
(every `_is_running` poll reads false), the audio-extraction stage still
runs — the clip is opened, `write_audiofile` is called and progress 20 is
emitted — so "the flag is checked before every one of the five stages, and
a prior cancellation prevents the stage from running" is false. -/
theorem extractionRunsAfterEarlyStopRequest :
    envEarlyStop.running1 = false ∧
      Act.openHandle ∈ (runJob jobA envEarlyStop).acts ∧
      Act.writeAudioCall ∈ (runJob jobA envEarlyStop).acts ∧
      Act.emit (Ev.progress 20) ∈ (runJob jobA envEarlyStop).acts := by decide

/-- C5 (counterexample): for a no-audio input, the terminal outcome is an
ordinary ErrorEvent on the generic `error` signal (the only non-success
event kind the worker has), not a distinct NoAudioTrack outcome, so
"not as a generic failure" is false. -/
theorem noAudioOutcomeIsGenericErrorEvent :
    terminalEvents (runJob jobA envNoAudio).acts =
      [Ev.errored "Input video has no audio track."] := by decide

/-- C8 (counterexample): an empty (zero-length, non-`None`) enhanced buffer
is not rejected — `save_audio` is called, and when it succeeds the
remux-back stage runs and the job even finishes successfully, so "the
persister fails whenever the buffer is empty, and remux does not run" is
false. -/
theorem emptyBufferAcceptedAndRemuxRuns :
    Act.saveAudioCall ∈ (runJob jobA envEmptyBuf).acts ∧
      Act.outputHanded "out.mp4" ∈ (runJob jobA envEmptyBuf).acts ∧
      terminalEvents (runJob jobA envEmptyBuf).acts =
        [Ev.finished "out.mp4" "Successfully denoised and saved to:\nout.mp4"] := by decide

/-- C2 witness: the amended theorem applied at the concrete successful
job. -/
theorem workspaceRemovedButRemuxDirPersistsWitness :
    0 ∈ remainingDirs (runJob jobA envAllOk).acts ∧
      1 ∉ remainingDirs (runJob jobA envAllOk).acts ∧
      (remainingFiles (runJob jobA envAllOk).acts).all (fun f => f.1 == 0) = true :=
  workspaceRemovedButRemuxDirPersists jobA envAllOk rfl rfl

/-- C3 witness: the amended theorem applied at the concrete failing
sanitize run. -/
theorem sanitizeFailurePropagatesUncaughtWitness :
    (runJob jobA envRemuxFail).crashed = true ∧
      events (runJob jobA envRemuxFail).acts = [] :=
  sanitizeFailurePropagatesUncaught jobA envRemuxFail rfl

/-- C4 witness: the amended theorem's first poll applied at the concrete
stopped-before-run oracle. -/
theorem cancellationPollsGuardOnlyLaterStagesWitness :
    Act.initModelCall ∉ (runJob jobA envEarlyStop).acts ∧
      (∀ a, Act.enhanceCall a ∉ (runJob jobA envEarlyStop).acts) ∧
      Act.saveAudioCall ∉ (runJob jobA envEarlyStop).acts ∧
      (∀ p, Act.outputHanded p ∉ (runJob jobA envEarlyStop).acts) :=
  (cancellationPollsGuardOnlyLaterStages jobA envEarlyStop).1 rfl

/-- C5 witness: the amended theorem applied at the concrete no-audio
oracle. -/
theorem noAudioEmitsSingleErrorAndSkipsLaterStagesWitness :
    terminalEvents (runJob jobA envNoAudio).acts =
        [Ev.errored "Input video has no audio track."] ∧
      Act.initModelCall ∉ (runJob jobA envNoAudio).acts ∧
      (∀ a, Act.enhanceCall a ∉ (runJob jobA envNoAudio).acts) ∧
      Act.saveAudioCall ∉ (runJob jobA envNoAudio).acts ∧
      (∀ p, Act.outputHanded p ∉ (runJob jobA envNoAudio).acts) :=
  noAudioEmitsSingleErrorAndSkipsLaterStages jobA envNoAudio rfl rfl rfl

/-- C6 witness: the success half of the theorem applied at the concrete
all-stages-succeed oracle. -/
theorem progressCheckpointsFixedAndMonotoneWitness :
    progressVals (runJob jobA envAllOk).acts = checkpoints :=
  (progressCheckpointsFixedAndMonotone jobA envAllOk).2 (by decide)

/-- C8 witness: the amended theorem's `None`-buffer half applied at the
concrete oracle where inference returns `None`. -/
theorem persistFailureBlocksRemuxWitness :
    terminalEvents (runJob jobA envEnhNone).acts =
        [Ev.errored "Denoising produced no audio data."] ∧
      Act.saveAudioCall ∉ (runJob jobA envEnhNone).acts ∧
      (∀ p, Act.outputHanded p ∉ (runJob jobA envEnhNone).acts) :=
  (persistFailureBlocksRemux jobA envEnhNone (by decide)).1 rfl

/-- C9 witness: the theorem's output-write clause applied at the concrete
successful job. -/
theorem remuxBackCommandAndSingleOutputWriteWitness :
    "out.mp4" = jobA.output_video ∧ reachesRemuxBack envAllOk = true ∧
      Act.invokeTool (remuxBackCmd "ffmpeg" (remuxOut jobA.input_video) enhWav
        jobA.output_video) ∈ (runJob jobA envAllOk).acts :=
  (remuxBackCommandAndSingleOutputWrite jobA envAllOk).2.2 "out.mp4" (by decide)
